import Mathlib

/-!
Shallow embedding of `clustercheck.py` (AtakamaLLC/clustercheck).

The module is embedded as pure Lean functions over an explicit checker
state.  The process environment (the HTTP transport `requests.request`,
`websocket.create_connection`, `re.search`, dynamic module loading, and the
original `socket` resolver) is modelled as an oracle record `Env`; Python
exceptions are modelled with `Except String` / an `Option String` "uncaught
exception" component, where the `String` stands for `repr(ex)`.  Python
object references held by `Report.check` are modelled as the index of the
descriptor in the config's `checks` list.  Python dictionaries are modelled
as association lists with first-match lookup and update-or-append insertion
(CPython preserves insertion order).
-/

set_option autoImplicit false

namespace ClusterCheck

/-- A Python runtime value, as far as the checker can observe it:
`None`, a `bool`, a `str`, an `int`, a truthy `re.Match` object, or a bound
method object (carrying the string its underlying `name()` would return). -/
inductive PyVal where
  | none
  | bool (b : Bool)
  | str (s : String)
  | int (n : Int)
  | matchObj
  | method (s : String)
  deriving Repr, DecidableEq

/-- Python truthiness (`bool(v)`): `None`, `False`, `""` and `0` are falsy;
a `re.Match` object and a bound method are truthy. -/
def truthy : PyVal → Bool
  | .none => false
  | .bool b => b
  | .str s => s != ""
  | .int n => n != 0
  | .matchObj => true
  | .method _ => true

/-- Python dict values observed by the checker. -/
abbrev Args := List (String × PyVal)

/-- Python `d.get(k)`: first binding of `k`, if any. -/
def dictGet {α : Type} (d : List (String × α)) (k : String) : Option α :=
  match d with
  | [] => Option.none
  | (k', v) :: t => if k' = k then some v else dictGet t k

/-- Python `d[k] = v`: replace the binding of `k` in place, or append it. -/
def dictSet {α : Type} (d : List (String × α)) (k : String) (v : α) :
    List (String × α) :=
  match d with
  | [] => [(k, v)]
  | (k', v') :: t => if k' = k then (k', v) :: t else (k', v') :: dictSet t k v

/-- Characters allowed in a URL scheme by `urllib.parse`. -/
def isSchemeChar (c : Char) : Bool :=
  c.isAlphanum || c = '+' || c = '-' || c = '.'

/-- The characters before the first `':'`, when a colon occurs at all. -/
def beforeColon : List Char → Option (List Char)
  | [] => Option.none
  | c :: cs =>
    if c = ':' then some []
    else (beforeColon cs).map (fun pre => c :: pre)

/-- Python `s.lower()` (ASCII, which is all hostnames and schemes use here). -/
def pyLower (s : String) : String := String.mk (s.data.map Char.toLower)

/-- Python `urlparse(url).scheme`: the lower-cased prefix before the first `:`,
when it is nonempty, starts with a letter and consists of scheme
characters; otherwise the empty string. -/
def urlScheme (url : String) : String :=
  match beforeColon url.data with
  | Option.none => ""
  | some pre =>
    if pre.length > 0 && (pre.headD ' ').isAlpha && pre.all isSchemeChar then
      String.mk (pre.map Char.toLower)
    else ""

/-- Python `s.rstrip(".")`: drop every trailing `'.'`. -/
def rstripDots (s : String) : String :=
  String.mk ((s.data.reverse.dropWhile (fun c => c = '.')).reverse)

/-- One parsed check descriptor (`CheckConfig` in the source). -/
structure CheckConfig where
  url : String
  args : Args
  plugin : Option String
  expect_status : Nat
  expect_contains : Option String
  deriving Repr, DecidableEq

/-- One parsed plugin-load request (`PluginConfig` in the source). -/
structure PluginConfig where
  lib : String
  name : String
  args : Args
  deriving Repr, DecidableEq

/-- Top-level parsed config (`Config` in the source). -/
structure Config where
  dns_map : List (String × String)
  checks : List CheckConfig
  plugins : List PluginConfig

/-- One outcome record (`Report` in the source).  `check` is the index of
the referenced descriptor in the config's `checks` list; `time` is a
monotone tick standing for `time.time()`. -/
structure Report where
  ok : PyVal
  msg : PyVal
  check : Nat
  time : Nat
  deriving Repr, DecidableEq

/-- A registered plugin instance: `pname` is what its `name()` classmethod
returns, `check` is its `check(url, args)` method, which may raise. -/
structure Plugin where
  pname : String
  check : String → Args → Except String PyVal

/-- The process-wide plugin registry `Plugin._plugins_`. -/
abbrev Registry := List (String × Plugin)

/-- An HTTP response, as far as the checker reads it. -/
structure HttpResp where
  status_code : Nat
  text : String

/-- A WebSocket connection: `pingExc` is the exception `ws.ping()` raises,
if any; `connected` is the `ws.connected` flag. -/
structure WsConn where
  pingExc : Option String
  connected : Bool

/-- The process environment: transports, regex search, and dynamic module
loading.  `loadLib lib` yields the `(name, instance)` registrations that
importing `lib` performs via `Plugin.__init_subclass__`, or the exception
the import raises after both the import-by-name and load-by-path
strategies fail. -/
structure Env where
  http : String → Args → Except String HttpResp
  wsConnect : String → Args → Except String WsConn
  reSearch : String → String → Bool
  loadLib : String → Except String (List (String × Plugin))

/-- The state of one `Checker` run, plus the process-global state it
touches (the plugin registry and the patched socket resolver). -/
structure CheckerState where
  reports : List Report
  config : Config
  results : List Report
  plugins : Registry
  globalRegistry : Registry
  resolver : String → Nat
  clock : Nat

/-- Python `Checker.__init__`: empty report and result lists, empty plugin view;
`globalReg` is the current content of `Plugin._plugins_` and `resolver0`
the unpatched `socket.gethostbyname` (addresses abstracted as `Nat`). -/
def Checker.init (config : Config) (globalReg : Registry)
    (resolver0 : String → Nat) : CheckerState :=
  { reports := [], config := config, results := [], plugins := [],
    globalRegistry := globalReg, resolver := resolver0, clock := 0 }

/-- Python `Checker.report`: append `Report(bool(ok), msg, check)`. -/
def Checker.report (st : CheckerState) (ok : PyVal) (msg : PyVal)
    (chk : Nat) : CheckerState :=
  { st with
    reports := st.reports ++ [⟨PyVal.bool (truthy ok), msg, chk, st.clock⟩],
    clock := st.clock + 1 }

/-- The key normalisation `setup_dns` performs once at install time:
`dns_map[src.lower().rstrip(".")] = dest`, later duplicates overwriting
earlier ones. -/
def normalizedDnsMap (dns_map : List (String × String)) :
    List (String × String) :=
  dns_map.foldl (fun acc sd => dictSet acc (rstripDots (pyLower sd.1)) sd.2) []

/-- The wrapper `setup_dns` installs around each socket resolution
function: redirect a query whose `rstrip(".")` form (the query is not
lower-cased) is a normalised key bound to a truthy destination. -/
def installDns (dns_map : List (String × String)) (prv : String → Nat) :
    String → Nat :=
  let m := normalizedDnsMap dns_map
  fun host =>
    match dictGet m (rstripDots host) with
    | some dest => if dest != "" then prv dest else prv host
    | Option.none => prv host

/-- Python `Checker.setup_dns`: patch the socket resolver process-wide. -/
def Checker.setup_dns (st : CheckerState) : CheckerState :=
  { st with resolver := installDns st.config.dns_map st.resolver }

/-- Python `Checker.load_plugin`: import `p.lib` (by module name, falling back to
load-by-path); on success the imported code self-registers its plugin
classes into the global registry, overwriting on name collision.  The
configured `p.name` is not consulted. -/
def Checker.load_plugin (env : Env) (reg : Registry) (p : PluginConfig) :
    Except String Registry :=
  match env.loadLib p.lib with
  | .error e => .error e
  | .ok regs => .ok (regs.foldl (fun acc np => dictSet acc np.1 np.2) reg)

/-- The loop body of `Checker.load_plugins` over `config.plugins`. -/
def loadPluginsAux (env : Env) (reg : Registry) :
    List PluginConfig → Except String Registry
  | [] => .ok reg
  | p :: ps =>
    match Checker.load_plugin env reg p with
    | .error e => .error e
    | .ok reg' => loadPluginsAux env reg' ps

/-- Python `Checker.load_plugins`: load every configured plugin, then set
`self.plugins = Plugin._plugins_`.  A load error propagates (the partial
global-registry mutation before the raise is not tracked). -/
def Checker.load_plugins (env : Env) (st : CheckerState) :
    Except String CheckerState :=
  match loadPluginsAux env st.globalRegistry st.config.plugins with
  | .error e => .error e
  | .ok reg => .ok { st with globalRegistry := reg, plugins := reg }

/-- Python `not g.args.get("method")`: missing or falsy. -/
def methodFalsy (args : Args) : Bool :=
  match dictGet args "method" with
  | Option.none => true
  | some v => !(truthy v)

/-- Python `ok and g.expect_contains`: the pattern is consulted only when
present and truthy (a `None` or empty pattern is skipped). -/
def containsTruthy (o : Option String) : Bool :=
  match o with
  | Option.none => false
  | some s => s != ""

/-- Python `if g.plugin:`: present and nonempty. -/
def pluginTruthy (o : Option String) : Bool :=
  match o with
  | Option.none => false
  | some s => s != ""

/-- The in-place default `if not g.args.get("method"): g.args["method"] =
"GET"` applied to a descriptor. -/
def withDefaultMethod (g : CheckConfig) : CheckConfig :=
  if methodFalsy g.args then
    { g with args := dictSet g.args "method" (PyVal.str "GET") }
  else g

/-- The scheme-routed part of one `check_all` iteration (the
`elif`/`else` chain on `uri.scheme`), for descriptor `g` at index `i`.
Returns the new state and the uncaught exception, if any. -/
def schemeDispatch (env : Env) (st : CheckerState) (i : Nat)
    (g : CheckConfig) : CheckerState × Option String :=
  let scheme := urlScheme g.url
  if scheme = "http" || scheme = "https" then
    -- `if not g.args.get("method"): g.args["method"] = "GET"` mutates the
    -- descriptor in place, outside the try block.
    let g' := withDefaultMethod g
    let st' := { st with
      config := { st.config with checks := st.config.checks.set i g' } }
    match env.http g'.url g'.args with
    | .error ex => (Checker.report st' (PyVal.bool false) (PyVal.str ex) i,
        Option.none)
    | .ok resp =>
      let ok := resp.status_code == g'.expect_status
      if ok && containsTruthy g'.expect_contains then
        let m := if env.reSearch (g'.expect_contains.getD "") resp.text
          then PyVal.matchObj else PyVal.none
        (Checker.report st' m (PyVal.str "http(s) text contains") i,
          Option.none)
      else
        (Checker.report st' (PyVal.bool ok) (PyVal.str "http(s) status") i,
          Option.none)
  else if scheme = "ws" || scheme = "wss" then
    -- No try/except: a connection or ping failure propagates.
    match env.wsConnect g.url g.args with
    | .error ex => (st, some ex)
    | .ok ws =>
      match ws.pingExc with
      | some ex => (st, some ex)
      | Option.none =>
        (Checker.report st (PyVal.bool ws.connected)
          (PyVal.str "websocket connected") i, Option.none)
  else
    (Checker.report st (PyVal.bool false) (PyVal.str "invalid scheme") i,
      Option.none)

/-- One iteration of the `check_all` loop, for the descriptor at index
`i`.  With an explicit truthy plugin name, routing bypasses the scheme:
`self.plugins[g.plugin]` raises `KeyError` when unregistered, and
`p.check(g.url, g.args)` may raise; neither is caught.  On success the
report's message is the bound method object `p.name` (no call). -/
def checkOne (env : Env) (st : CheckerState) (i : Nat) :
    CheckerState × Option String :=
  match st.config.checks.get? i with
  | Option.none => (st, Option.none)
  | some g =>
    match g.plugin with
    | some pn =>
      if pn != "" then
        match dictGet st.plugins pn with
        | Option.none => (st, some ("KeyError: " ++ pn))
        | some p =>
          match p.check g.url g.args with
          | .error e => (st, some e)
          | .ok v =>
            (Checker.report st v (PyVal.method p.pname) i, Option.none)
      else schemeDispatch env st i g
    | Option.none => schemeDispatch env st i g

/-- The `check_all` loop from index `i`, with `n` descriptors left.  A
propagated exception stops the loop (and the run). -/
def checkAllAux (env : Env) (st : CheckerState) (i : Nat) :
    Nat → CheckerState × Option String
  | 0 => (st, Option.none)
  | n + 1 =>
    match checkOne env st i with
    | (st', some e) => (st', some e)
    | (st', Option.none) => checkAllAux env st' (i + 1) n

/-- Python `Checker.check_all`: iterate `config.checks` in declared order. -/
def Checker.check_all (env : Env) (st : CheckerState) :
    CheckerState × Option String :=
  checkAllAux env st 0 st.config.checks.length

/-- Python `Checker.check`: install the DNS override, load plugins, run all
checks, and return `self.results`.  A plugin-load error or an uncaught
check exception propagates to the caller. -/
def Checker.check (env : Env) (st : CheckerState) :
    Except String (CheckerState × List Report) :=
  let st1 := Checker.setup_dns st
  match Checker.load_plugins env st1 with
  | .error e => .error e
  | .ok st2 =>
    match Checker.check_all env st2 with
    | (_, some e) => .error e
    | (st3, Option.none) => .ok (st3, st3.results)

/-- The only mutation `check_all` can apply to a descriptor: every field
but `args` is untouched, and `args` at most gains the in-place
`"method" = "GET"` default. -/
def descrAmended (g g' : CheckConfig) : Prop :=
  g'.url = g.url ∧ g'.plugin = g.plugin ∧
  g'.expect_status = g.expect_status ∧
  g'.expect_contains = g.expect_contains ∧
  (g'.args = g.args ∨ g'.args = dictSet g.args "method" (PyVal.str "GET"))

/-- A descriptor that routes to the exception-guarded `http`/`https`
branch or to the `invalid scheme` branch: no truthy plugin name and not a
WebSocket scheme. -/
def SafeCheck (g : CheckConfig) : Prop :=
  pluginTruthy g.plugin = false ∧
  urlScheme g.url ≠ "ws" ∧ urlScheme g.url ≠ "wss"

/-! ### Concrete fixtures used by witnesses and counterexamples -/

/-- A plugin instance whose `name()` is `"MyCheck"` and whose `check`
always succeeds with `True`. -/
def pluginMyCheck : Plugin := ⟨"MyCheck", fun _ _ => .ok (PyVal.bool true)⟩

/-- A plugin instance whose `name()` is `"Other"`. -/
def pluginOther : Plugin := ⟨"Other", fun _ _ => .ok (PyVal.bool true)⟩

/-- An environment where both transports fail, no pattern matches, and
importing any module performs no registration. -/
def envStub : Env :=
  { http := fun _ _ => .error "ConnectionError()",
    wsConnect := fun _ _ => .error "WebSocketException()",
    reSearch := fun _ _ => false,
    loadLib := fun _ => .ok [] }

/-- A descriptor with an unsupported scheme and no plugin. -/
def chkInvalid : CheckConfig := ⟨"foo://x/", [], Option.none, 200, Option.none⟩

/-- A plain WebSocket descriptor. -/
def chkWs : CheckConfig := ⟨"wss://x/", [], Option.none, 200, Option.none⟩

/-- A plain HTTP descriptor with empty `args`. -/
def chkHttp : CheckConfig := ⟨"http://x/", [], Option.none, 200, Option.none⟩

/-- A descriptor routed to the plugin `"MyCheck"`. -/
def chkPlugin : CheckConfig :=
  ⟨"wss://x/", [], some "MyCheck", 200, Option.none⟩

/-- A config holding just the given checks. -/
def cfgOf (cs : List CheckConfig) : Config := ⟨[], cs, []⟩

/-- A freshly constructed checker on the given checks, with an empty
global registry and a resolver returning address `0`. -/
def stOf (cs : List CheckConfig) : CheckerState :=
  Checker.init (cfgOf cs) [] (fun _ => 0)

/-- The checker state after the plugin-load phase has registered
`pluginMyCheck`, about to run one plugin-routed check. -/
def stPlug : CheckerState :=
  { stOf [chkPlugin] with plugins := [("MyCheck", pluginMyCheck)] }

/-- A resolver giving distinct addresses to the three names of the DNS
counterexample. -/
def prvDns : String → Nat :=
  fun s => if s = "b.example" then 2 else if s = "Example.Com" then 1 else 0

/-- An environment whose module loading always registers `pluginOther`
(declared name `"Other"`), whatever the configured name. -/
def envOther : Env :=
  { envStub with loadLib := fun _ => .ok [("Other", pluginOther)] }

/-- A checker on a config requesting one plugin load under the name
`"MyCheck"` and declaring no checks. -/
def stPlugCfg : CheckerState :=
  Checker.init ⟨[], [], [⟨"plug.py", "MyCheck", []⟩]⟩ [] (fun _ => 0)

/-- An environment whose HTTP transport always answers status 500. -/
def envHttp500 : Env :=
  { envStub with http := fun _ _ => .ok ⟨500, "hello"⟩ }

/-- A plugin whose `check` returns a truthy non-boolean value (a regex
`Match` object). -/
def pluginMatch : Plugin := ⟨"M", fun _ _ => .ok PyVal.matchObj⟩

/-- The checker state after the plugin-load phase has registered
`pluginMatch`, about to run one check routed to it. -/
def stPlugMatch : CheckerState :=
  { stOf [⟨"wss://x/", [], some "M", 200, Option.none⟩] with
    plugins := [("M", pluginMatch)] }

/-- The final state of `check_all` on `stOf [chkInvalid]` under `envStub`:
one failed invalid-scheme report. -/
def stInvalidFinal : CheckerState :=
  { reports := [⟨PyVal.bool false, PyVal.str "invalid scheme", 0, 0⟩],
    config := cfgOf [chkInvalid], results := [], plugins := [],
    globalRegistry := [], resolver := fun _ => 0, clock := 1 }

/-- The final state of the full `check()` pipeline on `stOf [chkHttp]`
under `envStub`: the descriptor gained the in-place `method` default, and
the one transport failure became a failed report. -/
def stHttpFinal : CheckerState :=
  { reports := [⟨PyVal.bool false, PyVal.str "ConnectionError()", 0, 0⟩],
    config := cfgOf [{ chkHttp with args := [("method", PyVal.str "GET")] }],
    results := [], plugins := [], globalRegistry := [],
    resolver := installDns [] (fun _ => 0), clock := 1 }

/-! ### Structural lemmas about one `check_all` iteration -/

theorem dictSet_idem {α : Type} (d : List (String × α)) (k : String)
    (v : α) : dictSet (dictSet d k v) k v = dictSet d k v := by
  induction d with
  | nil => simp [dictSet]
  | cons hd t ih =>
    by_cases h : hd.1 = k <;> simp [dictSet, h, ih]

theorem set_get?_self {α : Type} (l : List α) (i : Nat) (g : α)
    (h : l.get? i = some g) : l.set i g = l := by
  induction l generalizing i with
  | nil => simp [List.set]
  | cons hd t ih =>
    cases i with
    | zero => simp_all
    | succ j => simp_all [List.set]

/-- Case analysis of `schemeDispatch`: either it propagates an exception
leaving the state untouched (the `ws`/`wss` branch), or it appends exactly
one report for index `i`, changing nothing else except possibly mutating
the `i`-th descriptor into `withDefaultMethod g` (the `http`/`https`
branch). -/
theorem schemeDispatch_cases (env : Env) (st : CheckerState) (i : Nat)
    (g : CheckConfig) :
    (∃ err, schemeDispatch env st i g = (st, some err)) ∨
    (∃ v msg st₀,
      schemeDispatch env st i g = (Checker.report st₀ v msg i, Option.none) ∧
      st₀.reports = st.reports ∧ st₀.clock = st.clock ∧
      st₀.results = st.results ∧ st₀.plugins = st.plugins ∧
      st₀.globalRegistry = st.globalRegistry ∧
      st₀.resolver = st.resolver ∧
      st₀.config.dns_map = st.config.dns_map ∧
      st₀.config.plugins = st.config.plugins ∧
      (st₀.config.checks = st.config.checks ∨
        st₀.config.checks = st.config.checks.set i (withDefaultMethod g))) := by
  simp only [schemeDispatch]
  split
  · -- http/https branch
    split
    · -- transport raised
      exact Or.inr ⟨_, _, _, rfl, rfl, rfl, rfl, rfl, rfl, rfl, rfl, rfl,
        Or.inr rfl⟩
    · -- response received
      split
      · exact Or.inr ⟨_, _, _, rfl, rfl, rfl, rfl, rfl, rfl, rfl, rfl, rfl,
          Or.inr rfl⟩
      · exact Or.inr ⟨_, _, _, rfl, rfl, rfl, rfl, rfl, rfl, rfl, rfl, rfl,
          Or.inr rfl⟩
  · split
    · -- ws/wss branch
      split
      · -- connection raised
        exact Or.inl ⟨_, rfl⟩
      · split
        · -- ping raised
          exact Or.inl ⟨_, rfl⟩
        · exact Or.inr ⟨_, _, _, rfl, rfl, rfl, rfl, rfl, rfl, rfl, rfl, rfl,
            Or.inl rfl⟩
    · -- invalid scheme
      exact Or.inr ⟨_, _, _, rfl, rfl, rfl, rfl, rfl, rfl, rfl, rfl, rfl,
        Or.inl rfl⟩

/-- Case analysis of `checkOne`: it propagates an exception leaving the
state untouched, or the index is out of range and nothing happens, or it
appends exactly one report for index `i`, changing nothing else except
possibly the in-place `method` default on the `i`-th descriptor. -/
theorem checkOne_cases (env : Env) (st : CheckerState) (i : Nat) :
    (∃ err, checkOne env st i = (st, some err)) ∨
    (checkOne env st i = (st, Option.none) ∧
      st.config.checks.get? i = Option.none) ∨
    (∃ v msg st₀,
      checkOne env st i = (Checker.report st₀ v msg i, Option.none) ∧
      st₀.reports = st.reports ∧ st₀.clock = st.clock ∧
      st₀.results = st.results ∧ st₀.plugins = st.plugins ∧
      st₀.globalRegistry = st.globalRegistry ∧
      st₀.resolver = st.resolver ∧
      st₀.config.dns_map = st.config.dns_map ∧
      st₀.config.plugins = st.config.plugins ∧
      (st₀.config.checks = st.config.checks ∨
        ∃ g, st.config.checks.get? i = some g ∧
          st₀.config.checks = st.config.checks.set i (withDefaultMethod g))) := by
  simp only [checkOne]
  split
  · -- index out of range
    rename_i hget
    exact Or.inr (Or.inl ⟨rfl, hget⟩)
  · rename_i g hget
    split
    · -- explicit plugin name present
      rename_i pn hpl
      split
      · -- name truthy: registry lookup, then the plugin's check
        split
        · exact Or.inl ⟨_, rfl⟩
        · split
          · exact Or.inl ⟨_, rfl⟩
          · exact Or.inr (Or.inr ⟨_, _, _, rfl, rfl, rfl, rfl, rfl, rfl, rfl,
              rfl, rfl, Or.inl rfl⟩)
      · -- empty plugin name is falsy: scheme routing
        rcases schemeDispatch_cases env st i g with ⟨err, hd⟩ |
          ⟨v, msg, st₀, hd, h1, h2, h3, h4, h5, h6, h7, h8, h9⟩
        · exact Or.inl ⟨err, hd⟩
        · exact Or.inr (Or.inr ⟨v, msg, st₀, hd, h1, h2, h3, h4, h5, h6, h7,
            h8, h9.imp id (fun h => ⟨g, hget, h⟩)⟩)
    · -- no plugin: scheme routing
      rcases schemeDispatch_cases env st i g with ⟨err, hd⟩ |
        ⟨v, msg, st₀, hd, h1, h2, h3, h4, h5, h6, h7, h8, h9⟩
      · exact Or.inl ⟨err, hd⟩
      · exact Or.inr (Or.inr ⟨v, msg, st₀, hd, h1, h2, h3, h4, h5, h6, h7,
          h8, h9.imp id (fun h => ⟨g, hget, h⟩)⟩)

theorem withDefaultMethod_url (g : CheckConfig) :
    (withDefaultMethod g).url = g.url := by
  unfold withDefaultMethod; split <;> rfl

theorem withDefaultMethod_plugin (g : CheckConfig) :
    (withDefaultMethod g).plugin = g.plugin := by
  unfold withDefaultMethod; split <;> rfl

theorem withDefaultMethod_expect_status (g : CheckConfig) :
    (withDefaultMethod g).expect_status = g.expect_status := by
  unfold withDefaultMethod; split <;> rfl

theorem withDefaultMethod_expect_contains (g : CheckConfig) :
    (withDefaultMethod g).expect_contains = g.expect_contains := by
  unfold withDefaultMethod; split <;> rfl

/-- With a falsy plugin field, `checkOne` is exactly scheme routing. -/
theorem checkOne_eq_schemeDispatch (env : Env) (st : CheckerState)
    (i : Nat) (g : CheckConfig)
    (hget : st.config.checks.get? i = some g)
    (hpl : pluginTruthy g.plugin = false) :
    checkOne env st i = schemeDispatch env st i g := by
  simp only [checkOne]
  split
  · rename_i h
    rw [hget] at h
    exact Option.noConfusion h
  · rename_i g' hget'
    rw [hget] at hget'
    have hgg : g = g' := Option.some.inj hget'
    subst hgg
    split
    · rename_i pn hpn
      have hemp : pn = "" := by
        rw [hpn] at hpl
        simpa [pluginTruthy] using hpl
      subst hemp
      simp
    · rfl

theorem descrAmended_refl (g : CheckConfig) : descrAmended g g :=
  ⟨rfl, rfl, rfl, rfl, Or.inl rfl⟩

theorem descrAmended_withDefaultMethod (g : CheckConfig) :
    descrAmended g (withDefaultMethod g) := by
  unfold withDefaultMethod descrAmended
  split
  · exact ⟨rfl, rfl, rfl, rfl, Or.inr rfl⟩
  · exact ⟨rfl, rfl, rfl, rfl, Or.inl rfl⟩

theorem descrAmended_trans (a b c : CheckConfig) (hab : descrAmended a b)
    (hbc : descrAmended b c) : descrAmended a c := by
  obtain ⟨u1, p1, s1, c1, a1⟩ := hab
  obtain ⟨u2, p2, s2, c2, a2⟩ := hbc
  refine ⟨u2.trans u1, p2.trans p1, s2.trans s1, c2.trans c1, ?_⟩
  rcases a1 with a1 | a1 <;> rcases a2 with a2 | a2 <;>
    simp [a2, a1, dictSet_idem]

theorem report_config (st : CheckerState) (v msg : PyVal) (i : Nat) :
    (Checker.report st v msg i).config = st.config := rfl

theorem report_reports (st : CheckerState) (v msg : PyVal) (i : Nat) :
    (Checker.report st v msg i).reports =
      st.reports ++ [⟨PyVal.bool (truthy v), msg, i, st.clock⟩] := rfl

/-- One iteration preserves the number of descriptors. -/
theorem checkOne_checks_length (env : Env) (st : CheckerState) (i : Nat) :
    ((checkOne env st i).1).config.checks.length =
      st.config.checks.length := by
  rcases checkOne_cases env st i with ⟨err, hd⟩ | ⟨hd, _⟩ |
    ⟨v, msg, st₀, hd, _, _, _, _, _, _, _, _, h9⟩
  · rw [hd]
  · rw [hd]
  · rw [hd, report_config]
    rcases h9 with h9 | ⟨g, _, h9⟩ <;> simp [h9]

/-- One iteration amends each descriptor at most by the in-place
`method` default. -/
theorem checkOne_descr (env : Env) (st : CheckerState) (i j : Nat)
    (g0 : CheckConfig) (hj : st.config.checks.get? j = some g0) :
    ∃ g1, ((checkOne env st i).1).config.checks.get? j = some g1 ∧
      descrAmended g0 g1 := by
  rcases checkOne_cases env st i with ⟨err, hd⟩ | ⟨hd, _⟩ |
    ⟨v, msg, st₀, hd, _, _, _, _, _, _, _, _, h9⟩
  · exact ⟨g0, by rw [hd]; exact hj, descrAmended_refl g0⟩
  · exact ⟨g0, by rw [hd]; exact hj, descrAmended_refl g0⟩
  · rw [hd, report_config]
    rcases h9 with h9 | ⟨g, hg, h9⟩
    · exact ⟨g0, by rw [h9]; exact hj, descrAmended_refl g0⟩
    · by_cases hij : j = i
      · subst hij
        have hgg : g0 = g := by rw [hj] at hg; exact (Option.some.injEq _ _ ▸ hg)
        subst hgg
        have hlt : j < st.config.checks.length := by
          by_contra hge
          rw [List.get?_eq_none.mpr (Nat.le_of_not_lt hge)] at hj
          exact Option.noConfusion hj
        refine ⟨withDefaultMethod g0, ?_, descrAmended_withDefaultMethod g0⟩
        rw [h9]
        rw [List.get?_eq_getElem?, List.getElem?_set_self (by simpa using hlt)]
      · refine ⟨g0, ?_, descrAmended_refl g0⟩
        rw [h9, List.get?_eq_getElem?, List.getElem?_set_ne (Ne.symm hij)]
        rw [← List.get?_eq_getElem?]
        exact hj

/-- The whole loop amends each descriptor at most by the in-place
`method` default. -/
theorem checkAllAux_descr (env : Env) :
    ∀ (n i j : Nat) (st : CheckerState) (g0 : CheckConfig),
    st.config.checks.get? j = some g0 →
    ∃ g1, ((checkAllAux env st i n).1).config.checks.get? j = some g1 ∧
      descrAmended g0 g1 := by
  intro n
  induction n with
  | zero => exact fun i j st g0 hj => ⟨g0, hj, descrAmended_refl g0⟩
  | succ n ih =>
    intro i j st g0 hj
    obtain ⟨g1, hg1, ha1⟩ := checkOne_descr env st i j g0 hj
    rcases hone : checkOne env st i with ⟨st₁, e⟩
    rw [hone] at hg1
    cases e with
    | some err => exact ⟨g1, by simpa [checkAllAux, hone] using hg1, ha1⟩
    | none =>
      obtain ⟨g2, hg2, ha2⟩ := ih (i + 1) j st₁ g1 hg1
      exact ⟨g2, by simpa [checkAllAux, hone] using hg2,
        descrAmended_trans g0 g1 g2 ha1 ha2⟩

/-- A run of the loop that raises no exception appends exactly one report
per remaining descriptor, back-referencing the descriptors in order. -/
theorem checkAllAux_ok_spec (env : Env) :
    ∀ (n i : Nat) (st st' : CheckerState),
    checkAllAux env st i n = (st', Option.none) →
    i + n ≤ st.config.checks.length →
    ∃ l, st'.reports = st.reports ++ l ∧ l.length = n ∧
      ∀ (j : Nat) (h : j < l.length), (l.get ⟨j, h⟩).check = i + j := by
  intro n
  induction n with
  | zero =>
    intro i st st' hrun _
    have hst : st = st' := by simpa [checkAllAux] using hrun
    subst hst
    exact ⟨[], by simp, rfl, fun j h => absurd h (by simp)⟩
  | succ n ih =>
    intro i st st' hrun hlen
    have hi : i < st.config.checks.length := by omega
    rcases checkOne_cases env st i with ⟨err, hd⟩ | ⟨hd, hnone⟩ |
      ⟨v, msg, st₀, hd, h1, h2, _, _, _, _, _, _, h9⟩
    · rw [checkAllAux, hd] at hrun
      exact absurd (congrArg Prod.snd hrun) (by simp)
    · rw [List.get?_eq_none] at hnone
      omega
    · have hrun' :
          checkAllAux env (Checker.report st₀ v msg i) (i + 1) n =
            (st', Option.none) := by
        rw [checkAllAux, hd] at hrun
        exact hrun
      have hlen' : (i + 1) + n ≤
          (Checker.report st₀ v msg i).config.checks.length := by
        rw [report_config]
        rcases h9 with h9 | ⟨g, hg, h9⟩
        · rw [h9]; omega
        · rw [h9]; simp; omega
      obtain ⟨l', hrep', hlen'', hchk'⟩ :=
        ih (i + 1) (Checker.report st₀ v msg i) st' hrun' hlen'
      refine ⟨⟨PyVal.bool (truthy v), msg, i, st₀.clock⟩ :: l', ?_, ?_, ?_⟩
      · rw [hrep', report_reports, h1]; simp
      · simp [hlen'']
      · intro j h
        cases j with
        | zero => simp
        | succ j' =>
          have hj' : j' < l'.length := by simpa using h
          have hc := hchk' j' hj'
          simp only [List.get_cons_succ]
          rw [hc]
          omega

/-- Whatever the outcome, the loop only appends reports, and every
appended report's `ok` is a strict boolean. -/
theorem checkAllAux_reports (env : Env) :
    ∀ (n i : Nat) (st : CheckerState), ∃ l,
      ((checkAllAux env st i n).1).reports = st.reports ++ l ∧
      ∀ r, r ∈ l → ∃ b, r.ok = PyVal.bool b := by
  intro n
  induction n with
  | zero => exact fun i st => ⟨[], by simp [checkAllAux], by simp⟩
  | succ n ih =>
    intro i st
    rcases checkOne_cases env st i with ⟨err, hd⟩ | ⟨hd, _⟩ |
      ⟨v, msg, st₀, hd, h1, _, _, _, _, _, _, _, _⟩
    · exact ⟨[], by simp [checkAllAux, hd], by simp⟩
    · obtain ⟨l, hl, hok⟩ := ih (i + 1) st
      exact ⟨l, by rw [checkAllAux, hd]; exact hl, hok⟩
    · obtain ⟨l, hl, hok⟩ := ih (i + 1) (Checker.report st₀ v msg i)
      refine ⟨⟨PyVal.bool (truthy v), msg, i, st₀.clock⟩ :: l, ?_, ?_⟩
      · rw [checkAllAux, hd, hl, report_reports, h1]; simp
      · intro r hr
        rcases List.mem_cons.mp hr with hr | hr
        · exact ⟨truthy v, by rw [hr]⟩
        · exact hok r hr

/-- A descriptor with no truthy plugin name and a non-WebSocket scheme
never lets an exception escape its iteration. -/
theorem checkOne_no_raise (env : Env) (st : CheckerState) (i : Nat)
    (g : CheckConfig) (hget : st.config.checks.get? i = some g)
    (hsafe : SafeCheck g) : (checkOne env st i).2 = Option.none := by
  obtain ⟨hpl, hws, hwss⟩ := hsafe
  have hsd : ∀ g', g'.url = g.url → (schemeDispatch env st i g').2 =
      Option.none := by
    intro g' hurl
    simp only [schemeDispatch]
    split
    · split
      · rfl
      · split <;> rfl
    · split
      · rename_i hcond
        rw [hurl] at hcond
        simp [hws, hwss] at hcond
      · rfl
  simp only [checkOne]
  split
  · rfl
  · rename_i g' hget'
    rw [hget] at hget'
    have hg : g = g' := Option.some.inj hget'
    subst hg
    split
    · rename_i pn hpn
      have hemp : pn = "" := by
        rw [hpn] at hpl
        simpa [pluginTruthy] using hpl
      subst hemp
      simp only [bne_self_eq_false, Bool.false_eq_true, if_false]
      exact hsd g rfl
    · exact hsd g rfl

/-- When every descriptor is `SafeCheck`, the whole loop raises no
exception. -/
theorem checkAllAux_no_raise (env : Env) :
    ∀ (n i : Nat) (st : CheckerState),
    (∀ g, g ∈ st.config.checks → SafeCheck g) →
    (checkAllAux env st i n).2 = Option.none := by
  intro n
  induction n with
  | zero => intro i st _; rfl
  | succ n ih =>
    intro i st hsafe
    cases hget : st.config.checks.get? i with
    | none =>
      have hget' : st.config.checks[i]? = Option.none := by
        rw [← List.get?_eq_getElem?]; exact hget
      have hone : checkOne env st i = (st, Option.none) := by
        simp [checkOne, hget']
      rw [checkAllAux, hone]
      exact ih (i + 1) st hsafe
    | some g =>
      have hmem : g ∈ st.config.checks := List.get?_mem hget
      have hone2 : (checkOne env st i).2 = Option.none :=
        checkOne_no_raise env st i g hget (hsafe g hmem)
      rcases hone : checkOne env st i with ⟨st₁, e⟩
      rw [hone] at hone2
      simp only at hone2
      subst hone2
      rw [checkAllAux, hone]
      apply ih (i + 1) st₁
      intro g' hg'
      rcases checkOne_cases env st i with ⟨err, hd⟩ | ⟨hd, _⟩ |
        ⟨v, msg, st₀, hd, _, _, _, _, _, _, _, _, h9⟩
      · rw [hone] at hd
        exact absurd (congrArg Prod.snd hd) (by simp)
      · rw [hone] at hd
        have : st₁ = st := congrArg Prod.fst hd
        rw [this] at hg'
        exact hsafe g' hg'
      · rw [hone] at hd
        have hst₁ : st₁ = Checker.report st₀ v msg i := congrArg Prod.fst hd
        rw [hst₁, report_config] at hg'
        rcases h9 with h9 | ⟨g₂, hg₂, h9⟩
        · rw [h9] at hg'
          exact hsafe g' hg'
        · rw [h9] at hg'
          rcases List.mem_or_eq_of_mem_set hg' with hg' | hg'
          · exact hsafe g' hg'
          · subst hg'
            have hs₂ := hsafe g₂ (List.get?_mem hg₂)
            exact ⟨by rw [withDefaultMethod_plugin]; exact hs₂.1,
              by rw [withDefaultMethod_url]; exact hs₂.2.1,
              by rw [withDefaultMethod_url]; exact hs₂.2.2⟩

/-- Lemma: `load_plugins` returning normally only updates the plugin views. -/
theorem load_plugins_ok_frame (env : Env) (st st2 : CheckerState)
    (h : Checker.load_plugins env st = .ok st2) :
    st2.config = st.config ∧ st2.reports = st.reports ∧
    st2.results = st.results ∧ st2.resolver = st.resolver ∧
    st2.clock = st.clock := by
  unfold Checker.load_plugins at h
  cases hl : loadPluginsAux env st.globalRegistry st.config.plugins with
  | error e => rw [hl] at h; exact Except.noConfusion h
  | ok reg =>
    rw [hl] at h
    have : st2 = { st with globalRegistry := reg, plugins := reg } :=
      (Except.ok.inj h).symm
    rw [this]
    exact ⟨rfl, rfl, rfl, rfl, rfl⟩

/-! ### Claim theorems -/

/-- C8: for an HTTP(S) check whose transport answers with a status code
different from `expect_status`, the iteration raises nothing and appends
exactly one Report with `ok = False` and `msg = "http(s) status"`; the
`expect_contains` pattern is never evaluated, witnessed by the outcome
being independent of the environment's `re.search`. -/
theorem c8_http_status_mismatch (env : Env) (st : CheckerState) (i : Nat)
    (g : CheckConfig) (resp : HttpResp)
    (hget : st.config.checks.get? i = some g)
    (hpl : pluginTruthy g.plugin = false)
    (hs : urlScheme g.url = "http" ∨ urlScheme g.url = "https")
    (hresp : env.http (withDefaultMethod g).url (withDefaultMethod g).args =
      .ok resp)
    (hne : resp.status_code ≠ g.expect_status) :
    (checkOne env st i).2 = Option.none ∧
    (checkOne env st i).1.reports = st.reports ++
      [⟨PyVal.bool false, PyVal.str "http(s) status", i, st.clock⟩] ∧
    ∀ f, checkOne { env with reSearch := f } st i = checkOne env st i := by
  have hcond : (decide (urlScheme g.url = "http") ||
      decide (urlScheme g.url = "https")) = true := by
    rcases hs with h | h <;> simp [h]
  have hbe : (resp.status_code == (withDefaultMethod g).expect_status) =
      false := by
    rw [withDefaultMethod_expect_status]
    exact beq_eq_false_iff_ne.mpr hne
  have key : ∀ (e' : Env), e'.http = env.http →
      checkOne e' st i =
        (Checker.report
          { st with config := { st.config with
              checks := st.config.checks.set i (withDefaultMethod g) } }
          (PyVal.bool (resp.status_code == (withDefaultMethod g).expect_status))
          (PyVal.str "http(s) status") i, Option.none) := by
    intro e' hh
    rw [checkOne_eq_schemeDispatch e' st i g hget hpl]
    simp only [schemeDispatch]
    rw [if_pos hcond, hh, hresp]
    simp only [hbe, Bool.false_and, Bool.false_eq_true, if_false]
  refine ⟨?_, ?_, ?_⟩
  · rw [key env rfl]
  · rw [key env rfl]
    simp [Checker.report, truthy, hbe]
  · intro f
    rw [key { env with reSearch := f } rfl, key env rfl]

/-- C9: any exception the HTTP(S) transport raises is caught and turned
into a Report with `ok = False` whose message is the exception's
descriptive string; no exception escapes the iteration. -/
theorem c9_http_exception_caught (env : Env) (st : CheckerState) (i : Nat)
    (g : CheckConfig) (ex : String)
    (hget : st.config.checks.get? i = some g)
    (hpl : pluginTruthy g.plugin = false)
    (hs : urlScheme g.url = "http" ∨ urlScheme g.url = "https")
    (hresp : env.http (withDefaultMethod g).url (withDefaultMethod g).args =
      .error ex) :
    (checkOne env st i).2 = Option.none ∧
    (checkOne env st i).1.reports = st.reports ++
      [⟨PyVal.bool false, PyVal.str ex, i, st.clock⟩] := by
  have hcond : (decide (urlScheme g.url = "http") ||
      decide (urlScheme g.url = "https")) = true := by
    rcases hs with h | h <;> simp [h]
  have key : checkOne env st i =
      (Checker.report
        { st with config := { st.config with
            checks := st.config.checks.set i (withDefaultMethod g) } }
        (PyVal.bool false) (PyVal.str ex) i, Option.none) := by
    rw [checkOne_eq_schemeDispatch env st i g hget hpl]
    simp only [schemeDispatch]
    rw [if_pos hcond, hresp]
  refine ⟨by rw [key], ?_⟩
  rw [key]
  simp [Checker.report, truthy]

/-- C8 witness: a concrete status-500 answer to a check expecting 200. -/
theorem c8_witness :
    (checkOne envHttp500 (stOf [chkHttp]) 0).2 = Option.none ∧
    (checkOne envHttp500 (stOf [chkHttp]) 0).1.reports =
      (stOf [chkHttp]).reports ++
      [⟨PyVal.bool false, PyVal.str "http(s) status", 0,
        (stOf [chkHttp]).clock⟩] ∧
    ∀ f, checkOne { envHttp500 with reSearch := f } (stOf [chkHttp]) 0 =
      checkOne envHttp500 (stOf [chkHttp]) 0 :=
  c8_http_status_mismatch envHttp500 (stOf [chkHttp]) 0 chkHttp
    ⟨500, "hello"⟩ (by decide) (by decide) (Or.inl (by decide)) (by rfl)
    (by decide)

/-- C9 witness: a concrete refused connection becomes a failed report
carrying the exception's descriptive string. -/
theorem c9_witness :
    (checkOne envStub (stOf [chkHttp]) 0).2 = Option.none ∧
    (checkOne envStub (stOf [chkHttp]) 0).1.reports =
      (stOf [chkHttp]).reports ++
      [⟨PyVal.bool false, PyVal.str "ConnectionError()", 0,
        (stOf [chkHttp]).clock⟩] :=
  c9_http_exception_caught envStub (stOf [chkHttp]) 0 chkHttp
    "ConnectionError()" (by decide) (by decide) (Or.inl (by decide))
    (by rfl)

/-- C1 (counterexample): a config with one descriptor routed to an
unregistered plugin name yields zero Reports, not one — the `KeyError`
aborts the run. -/
theorem c1_counterexample :
    (stOf [chkPlugin]).config.checks.length = 1 ∧
    (Checker.check_all envStub (stOf [chkPlugin])).1.reports.length = 0 ∧
    (Checker.check_all envStub (stOf [chkPlugin])).2 =
      some "KeyError: MyCheck" :=
  ⟨by decide, by decide, by decide⟩

/-- C1 (amended): when `check_all` completes without an uncaught
exception, it produces exactly one Report per descriptor, and the `i`-th
Report back-references the `i`-th descriptor. -/
theorem c1_reports_in_order (env : Env) (st st' : CheckerState)
    (hrep : st.reports = [])
    (hrun : Checker.check_all env st = (st', Option.none)) :
    st'.reports.length = st.config.checks.length ∧
    ∀ (j : Nat) (h : j < st'.reports.length),
      (st'.reports.get ⟨j, h⟩).check = j := by
  obtain ⟨l, hl, hlen, hchk⟩ := checkAllAux_ok_spec env
    st.config.checks.length 0 st st' hrun (by omega)
  rw [hl, hrep]
  simp only [List.nil_append]
  exact ⟨hlen, fun j h => by simpa using hchk j h⟩

/-- C1 witness: one invalid-scheme descriptor, one report, index 0. -/
theorem c1_witness :
    stInvalidFinal.reports.length =
      (stOf [chkInvalid]).config.checks.length ∧
    ∀ (j : Nat) (h : j < stInvalidFinal.reports.length),
      (stInvalidFinal.reports.get ⟨j, h⟩).check = j :=
  c1_reports_in_order envStub (stOf [chkInvalid]) stInvalidFinal rfl
    (by rfl)

/-- C2 (counterexample): a WebSocket connection failure on the first
descriptor aborts the run — the second descriptor is never executed and
produces no Report. -/
theorem c2_counterexample :
    (stOf [chkWs, chkInvalid]).config.checks.length = 2 ∧
    (Checker.check_all envStub (stOf [chkWs, chkInvalid])).2 =
      some "WebSocketException()" ∧
    (Checker.check_all envStub (stOf [chkWs, chkInvalid])).1.reports = [] :=
  ⟨by decide, by decide, by decide⟩

/-- C2 (amended): failure isolation holds only for the `http`/`https`
branch (and the invalid-scheme fallback): when every descriptor avoids
plugin routing and WebSocket schemes, no exception escapes `check_all` and
every descriptor produces its Report, whatever the transport does. -/
theorem c2_http_isolated (env : Env) (st : CheckerState)
    (hrep : st.reports = [])
    (hsafe : ∀ g, g ∈ st.config.checks → SafeCheck g) :
    (Checker.check_all env st).2 = Option.none ∧
    ((Checker.check_all env st).1).reports.length =
      st.config.checks.length := by
  rcases hrun : Checker.check_all env st with ⟨st', e⟩
  have hrun' : checkAllAux env st 0 st.config.checks.length = (st', e) := hrun
  have he : e = Option.none := by
    have h2 := checkAllAux_no_raise env st.config.checks.length 0 st hsafe
    rw [hrun'] at h2
    exact h2
  subst he
  obtain ⟨l, hl, hlen, _⟩ := checkAllAux_ok_spec env
    st.config.checks.length 0 st st' hrun' (by omega)
  refine ⟨rfl, ?_⟩
  show st'.reports.length = st.config.checks.length
  rw [hl, hrep]
  simpa using hlen

/-- C2 witness: two descriptors, both in exception-guarded branches, with
a transport that always raises — both still produce their Reports. -/
theorem c2_witness :
    (Checker.check_all envStub (stOf [chkHttp, chkInvalid])).2 =
      Option.none ∧
    ((Checker.check_all envStub (stOf [chkHttp, chkInvalid])).1).reports.length =
      (stOf [chkHttp, chkInvalid]).config.checks.length :=
  c2_http_isolated envStub (stOf [chkHttp, chkInvalid]) rfl
    (by
      intro g hg
      have hgg : g = chkHttp ∨ g = chkInvalid := by
        simpa [stOf, cfgOf, Checker.init] using hg
      rcases hgg with h | h <;> subst h <;>
        exact ⟨by decide, by decide, by decide⟩)

/-- C3: `check()` returns `self.results`, which nothing ever appends to:
on a config with one (invalid-scheme) check the run accumulates one
Report in `self.reports`, yet the returned value is the empty list — not
the accumulated Report sequence the spec requires. -/
theorem c3_returns_empty_results :
    ((Checker.check envStub (stOf [chkInvalid])).toOption.map
      (fun p => (p.2, p.1.reports.length))) = some ([], 1) := by decide

/-- C4 (counterexample): an `http` descriptor with no `method` key has its
`args` mapping mutated in place during the run — after `check()`
completes the descriptor's `args` holds `method = "GET"`, not its original
(empty) value. -/
theorem c4_counterexample :
    chkHttp.args = [] ∧
    ((Checker.check envStub (stOf [chkHttp])).toOption.map
      (fun p => p.1.config.checks)) =
      some [{ chkHttp with args := [("method", PyVal.str "GET")] }] :=
  ⟨rfl, by decide⟩

/-- C4 (amended): after `check()` completes, every descriptor's `url`,
`plugin`, `expect_status` and `expect_contains` are unchanged, and its
`args` is unchanged except for possibly gaining the in-place
`method = "GET"` default. -/
theorem c4_frame (env : Env) (st st2 : CheckerState) (res : List Report)
    (h : Checker.check env st = .ok (st2, res)) (j : Nat)
    (g0 : CheckConfig) (hj : st.config.checks.get? j = some g0) :
    ∃ g1, st2.config.checks.get? j = some g1 ∧ descrAmended g0 g1 := by
  simp only [Checker.check] at h
  cases hl : Checker.load_plugins env (Checker.setup_dns st) with
  | error e => rw [hl] at h; exact Except.noConfusion h
  | ok stl =>
    rw [hl] at h
    dsimp only at h
    rcases hrun : Checker.check_all env stl with ⟨st3, e⟩
    rw [hrun] at h
    cases e with
    | some err => exact Except.noConfusion h
    | none =>
      dsimp only at h
      have hpair : (st3, st3.results) = (st2, res) := Except.ok.inj h
      have hst : st3 = st2 := congrArg Prod.fst hpair
      have hcfg : stl.config = st.config :=
        (load_plugins_ok_frame env (Checker.setup_dns st) stl hl).1
      have hj' : stl.config.checks.get? j = some g0 := by rw [hcfg]; exact hj
      have hrun' : checkAllAux env stl 0 stl.config.checks.length =
          (st3, Option.none) := hrun
      obtain ⟨g1, hg1, ha1⟩ := checkAllAux_descr env
        stl.config.checks.length 0 j stl g0 hj'
      rw [hrun'] at hg1
      exact ⟨g1, by rw [← hst]; exact hg1, ha1⟩

/-- C4 witness: the frame property instantiated on the concrete run of
the counterexample's config. -/
theorem c4_witness :
    ∃ g1, stHttpFinal.config.checks.get? 0 = some g1 ∧
      descrAmended chkHttp g1 :=
  c4_frame envStub (stOf [chkHttp]) stHttpFinal [] rfl 0 chkHttp rfl

/-- C5 (counterexample): the install-time key normalisation lower-cases,
but the lookup wrapper does not lower-case the queried hostname, so
resolving the mapped-from hostname `"Example.Com"` (exactly as written in
the map) is NOT redirected and yields a different address from resolving
the mapped-to hostname `"b.example"` directly. -/
theorem c5_counterexample :
    installDns [("Example.Com", "b.example")] prvDns "Example.Com" = 1 ∧
    installDns [("Example.Com", "b.example")] prvDns "b.example" = 2 :=
  ⟨rfl, rfl⟩

/-- C5 (amended): only a query whose trailing-dot-stripped form equals the
normalised (lower-cased, dot-stripped) key is redirected: if the
normalised map binds that key to a truthy `dest` that is not itself
remapped, resolving the query yields the previous resolver's answer for
`dest`, which is also what resolving `dest` through the installed resolver
yields. -/
theorem c5_normalized_lookup (m : List (String × String))
    (prv : String → Nat) (src dest q : String)
    (h1 : dictGet (normalizedDnsMap m) (rstripDots (pyLower src)) = some dest)
    (h2 : dest ≠ "")
    (h3 : rstripDots q = rstripDots (pyLower src))
    (h4 : dictGet (normalizedDnsMap m) (rstripDots dest) = Option.none) :
    installDns m prv q = prv dest ∧
    installDns m prv q = installDns m prv dest := by
  have hq : installDns m prv q = prv dest := by
    unfold installDns
    simp only [h3, h1]
    rw [if_pos (by simpa using h2)]
  have hd : installDns m prv dest = prv dest := by
    unfold installDns
    simp only [h4]
  exact ⟨hq, by rw [hq, hd]⟩

/-- C5 witness: the amended lookup rule on a concrete map, with a
lower-case query carrying trailing dots. -/
theorem c5_witness :
    installDns [("Example.Com", "b.example")] prvDns "example.com.." = 2 ∧
    installDns [("Example.Com", "b.example")] prvDns "example.com.." =
      installDns [("Example.Com", "b.example")] prvDns "b.example" :=
  c5_normalized_lookup [("Example.Com", "b.example")] prvDns
    "Example.Com" "b.example" "example.com.." rfl (by decide) rfl rfl

/-- C6 (counterexample): a plugin source that loads fine but registers
only the name `"Other"` while the descriptor configures `"MyCheck"` makes
the load phase succeed — no fatal error is raised, and the configured
name is simply absent from the registry. -/
theorem c6_counterexample :
    ((Checker.load_plugins envOther stPlugCfg).toOption.map
      (fun s => dictGet s.plugins "MyCheck")) = some Option.none := rfl

/-- C6 (amended): the load phase performs no name-consistency validation:
it succeeds whenever every configured source loads, regardless of the
names the loaded code registers (a mismatch only surfaces later, as a
`KeyError` when a check referencing the name is dispatched). -/
theorem c6_no_name_validation (env : Env) (st : CheckerState)
    (h : ∀ p, p ∈ st.config.plugins → ∃ regs, env.loadLib p.lib = .ok regs) :
    ∃ st2, Checker.load_plugins env st = .ok st2 := by
  suffices haux : ∀ (ps : List PluginConfig) (reg : Registry),
      (∀ p, p ∈ ps → ∃ regs, env.loadLib p.lib = .ok regs) →
      ∃ reg', loadPluginsAux env reg ps = .ok reg' by
    obtain ⟨reg', hreg⟩ := haux st.config.plugins st.globalRegistry h
    refine ⟨{ st with globalRegistry := reg', plugins := reg' }, ?_⟩
    unfold Checker.load_plugins
    rw [hreg]
  intro ps
  induction ps with
  | nil => exact fun reg _ => ⟨reg, rfl⟩
  | cons p ps ih =>
    intro reg hp
    obtain ⟨regs, hregs⟩ := hp p (List.mem_cons_self p ps)
    obtain ⟨reg', hreg'⟩ := ih
      (regs.foldl (fun acc np => dictSet acc np.1 np.2) reg)
      (fun q hq => hp q (List.mem_cons_of_mem p hq))
    refine ⟨reg', ?_⟩
    unfold loadPluginsAux Checker.load_plugin
    rw [hregs]
    exact hreg'

/-- C6 witness: the amended no-validation rule on the concrete
mismatching load request. -/
theorem c6_witness : ∃ st2, Checker.load_plugins envOther stPlugCfg =
    .ok st2 :=
  c6_no_name_validation envOther stPlugCfg
    (fun _ _ => ⟨[("Other", pluginOther)], rfl⟩)

/-- C7: at the failing input (a registered plugin `"MyCheck"` whose check
returns `True`), the produced Report's `ok` is indeed the truthiness of
the plugin's return value, but its `msg` is the bound method object
`p.name` — not the string `"MyCheck"` that `p.name()` would return. -/
theorem c7_msg_is_bound_method :
    (checkOne envStub stPlug 0).1.reports =
      [⟨PyVal.bool true, PyVal.method "MyCheck", 0, 0⟩] ∧
    PyVal.method "MyCheck" ≠ PyVal.str "MyCheck" :=
  ⟨rfl, by decide⟩

/-- C10: every Report the run appends has a strict boolean `ok` — the
`bool()` coercion in `Checker.report` normalises even truthy non-boolean
handler values (regex matches, arbitrary plugin returns). -/
theorem c10_ok_is_strict_bool (env : Env) (st : CheckerState) (r : Report)
    (hrep : st.reports = [])
    (hr : r ∈ ((Checker.check_all env st).1).reports) :
    ∃ b, r.ok = PyVal.bool b := by
  obtain ⟨l, hl, hok⟩ := checkAllAux_reports env
    st.config.checks.length 0 st
  have hl' : ((Checker.check_all env st).1).reports = st.reports ++ l := hl
  rw [hl', hrep] at hr
  simp only [List.nil_append] at hr
  exact hok r hr

/-- C10 witness: a plugin returning a truthy `re.Match` object still
yields a stored `ok` that is exactly the boolean `True`. -/
theorem c10_witness :
    ∃ b, (⟨PyVal.bool true, PyVal.method "M", 0, 0⟩ : Report).ok =
      PyVal.bool b :=
  c10_ok_is_strict_bool envStub stPlugMatch
    ⟨PyVal.bool true, PyVal.method "M", 0, 0⟩ rfl (by decide)

end ClusterCheck
